import Mathlib

/-!
Shallow embedding of `src/core/websock.ts` (the Websock buffering wrapper):
the receive-queue buffer with its growth/compaction algorithm, the binary
read primitives, the send queue with its flush discipline, and the channel
attach lifecycle.  Machine-level JavaScript behaviour is made explicit:
`Uint8Array` cells are naturals reduced mod 256, the `<<` operator is the
32-bit signed shift (`jsShl`), and fallible operations return `Except`.
-/

/-- Error kinds raised by the code (JS `throw new Error(...)` sites plus the
runtime `TypeError`/`RangeError` that the typed-array operations can raise). -/
inductive WsErr where
  /-- `rQwait cannot backup ... bytes` (rQwait with goback larger than `_rQi`). -/
  | invalidRewind
  /-- `Receive Queue buffer exceeded ... bytes, and the new message could not fit`. -/
  | bufferOverflow
  /-- `Raw channel missing property: ...` (attach-time validation). -/
  | incompatibleChannel
  /-- runtime TypeError (member access on `null`). -/
  | typeError
  /-- runtime RangeError (typed-array access out of bounds). -/
  | rangeError
deriving DecidableEq, Repr

/-- The readiness states of the two supported raw channels: the numeric
`WebSocket.CONNECTING/OPEN/CLOSING/CLOSED` constants and the string
`RTCDataChannelState` constants from the `DataChannel` object. -/
inductive JSReadyState where
  | wsConnecting | wsOpen | wsClosing | wsClosed
  | dcConnecting | dcOpen | dcClosing | dcClosed
deriving DecidableEq, Repr

/-- `ReadyStates.OPEN = [WebSocket.OPEN, DataChannel.OPEN]`. -/
def ReadyStatesOPEN : List JSReadyState := [.wsOpen, .dcOpen]

/-- The raw channel object (`WebSocket` or `RTCDataChannel`): the fields the
Websock code reads or writes.  `props` is the set of property names the
attach-time validation inspects; `sent` is the log of messages transmitted
through the channel's native `send` (newest last). -/
structure RawChannel where
  binaryType : String
  readyState : JSReadyState
  props : List String
  sent : List (List Nat)
deriving DecidableEq, Repr

/-- The `Websock` instance state: field for field the mutable members of the
class (`_eventHandlers` is not stored; handlers are passed explicitly to
`_recvMessage`, since the state must stay decidable).  `_rQ`/`_sQ` are `null`
in the source until `init`; the empty list stands for `null` (no claim
exercises a pre-`init` buffer access). -/
structure Websock where
  _websocket : Option RawChannel
  _rQi : Nat
  _rQlen : Nat
  _rQbufferSize : Nat
  _rQ : List Nat
  _sQbufferSize : Nat
  _sQlen : Nat
  _sQ : List Nat
deriving DecidableEq, Repr

/-- `const MAX_RQ_GROW_SIZE = 40 * 1024 * 1024;  // 40 MiB` -/
def MAX_RQ_GROW_SIZE : Nat := 40 * 1024 * 1024

/-- The `constructor()`: buffers are `null` (modelled `[]`), all cursors 0,
receive capacity 4 MiB, send capacity 10 KiB. -/
def websockConstructor : Websock :=
  { _websocket := none
    _rQi := 0
    _rQlen := 0
    _rQbufferSize := 1024 * 1024 * 4
    _rQ := []
    _sQbufferSize := 1024 * 10
    _sQlen := 0
    _sQ := [] }

/-- JavaScript `ToInt32`: reduce mod 2^32, then reinterpret as a signed
32-bit value. -/
def toInt32 (n : Nat) : Int :=
  let v := n % 4294967296
  if v < 2147483648 then (v : Int) else (v : Int) - 4294967296

/-- JavaScript `x << s` for a non-negative `x`: `ToInt32(x)`, shift count
masked to 5 bits, result reinterpreted as signed 32-bit. -/
def jsShl (x s : Nat) : Int :=
  toInt32 (x % 4294967296 * 2 ^ (s % 32))

/-- `TypedArray.prototype.set(src, off)` on a `Uint8Array`: throws a
RangeError when the source does not fit, otherwise overwrites
`target[off .. off+|src|)` with `src` (each value reduced mod 256 by the
Uint8Array element conversion). -/
def typedArraySet (target src : List Nat) (off : Nat) : Except WsErr (List Nat) :=
  if target.length < off + src.length then .error .rangeError
  else .ok (target.take off ++ src.map (· % 256) ++ target.drop (off + src.length))

/-- `Array.prototype.copyWithin(0, start, fin)` on a `Uint8Array`: copies the
clamped range `[start, fin)` to offset 0 in place (length preserved). -/
def jsCopyWithin0 (l : List Nat) (start fin : Nat) : List Nat :=
  let s := min start l.length
  let e := min fin l.length
  let cnt := min (e - s) l.length
  ((l.drop s).take cnt) ++ l.drop cnt

namespace Websock

/-- Getter `get rQlen() { return this._rQlen - this._rQi; }` — the unread
byte count.  JavaScript subtraction can go negative, so the result is `Int`. -/
def rQlen (s : Websock) : Int := (s._rQlen : Int) - (s._rQi : Int)

/-- `rQpeek8()`: `this._rQ[this._rQi]` (out-of-range reads give `undefined`,
which every numeric use coerces to 0). -/
def rQpeek8 (s : Websock) : Nat := s._rQ.getD s._rQi 0

/-- `rQskipBytes(bytes)`: `this._rQi += bytes` — no bounds check. -/
def rQskipBytes (s : Websock) (bytes : Nat) : Websock :=
  { s with _rQi := s._rQi + bytes }

/-- The loop body of `_rQshift`: `for (byte = bytes-1; byte >= 0; byte--)
res += this._rQ[this._rQi++] << (byte * 8)`, reading consecutive cells
starting at index `i`. -/
def rQshiftAux (rQ : List Nat) (i : Nat) : Nat → Int
  | 0 => 0
  | b + 1 => jsShl (rQ.getD i 0) (b * 8) + rQshiftAux rQ (i + 1) b

/-- `_rQshift(bytes)`: big-endian accumulation via the JS `<<` operator;
advances `_rQi` by `bytes`. -/
def _rQshift (s : Websock) (bytes : Nat) : Int × Websock :=
  (rQshiftAux s._rQ s._rQi bytes, { s with _rQi := s._rQi + bytes })

/-- `rQshift8()`. -/
def rQshift8 (s : Websock) : Int × Websock := s._rQshift 1

/-- `rQshift16()`. -/
def rQshift16 (s : Websock) : Int × Websock := s._rQshift 2

/-- `rQshift32()`. -/
def rQshift32 (s : Websock) : Int × Websock := s._rQshift 4

/-- `rQshiftBytes(len)`: returns the view
`new Uint8Array(this._rQ.buffer, this._rQi - len, len)` (RangeError when it
reaches past the buffer) and advances `_rQi` by `len`. -/
def rQshiftBytes (s : Websock) (len : Nat) : Except WsErr (List Nat × Websock) :=
  if s._rQ.length < s._rQi + len then .error .rangeError
  else .ok ((s._rQ.drop s._rQi).take len, { s with _rQi := s._rQi + len })

/-- `rQshiftTo(target, len)`: `target.set(view)` then `this._rQi += len`;
returns the updated target. -/
def rQshiftTo (s : Websock) (target : List Nat) (len : Nat) :
    Except WsErr (List Nat × Websock) :=
  if s._rQ.length < s._rQi + len then .error .rangeError
  else
    match typedArraySet target ((s._rQ.drop s._rQi).take len) 0 with
    | .error e => .error e
    | .ok t => .ok (t, { s with _rQi := s._rQi + len })

/-- `rQwait(msg, num, goback)`: returns true (need more data) when fewer than
`num` unread bytes are available, rewinding the cursor by `goback` first
(throwing when `goback` is truthy and exceeds `_rQi`); otherwise false. -/
def rQwait (s : Websock) (num goback : Nat) : Except WsErr (Bool × Websock) :=
  if s.rQlen < (num : Int) then
    if goback ≠ 0 then
      if s._rQi < goback then .error .invalidRewind
      else .ok (true, { s with _rQi := s._rQi - goback })
    else .ok (true, s)
  else .ok (false, s)

/-- `_encodeMessage()`: `new Uint8Array(this._sQ.buffer, 0, this._sQlen)`. -/
def _encodeMessage (s : Websock) : List Nat := s._sQ.take s._sQlen

/-- `flush()`: when the send queue is non-empty and the channel's readiness
state is in `ReadyStates.OPEN`, transmit `_encodeMessage()` and zero
`_sQlen`.  Accessing `readyState` on a `null` channel is a TypeError (the
`&&` short-circuits when `_sQlen` is 0). -/
def flush (s : Websock) : Except WsErr Websock :=
  if 0 < s._sQlen then
    match s._websocket with
    | none => .error .typeError
    | some ch =>
      if ch.readyState ∈ ReadyStatesOPEN then
        .ok { s with
              _websocket := some { ch with sent := ch.sent ++ [s._encodeMessage] }
              _sQlen := 0 }
      else .ok s
  else .ok s

/-- `send(arr)`: `this._sQ.set(arr, this._sQlen); this._sQlen += arr.length;
this.flush()`. -/
def send (s : Websock) (arr : List Nat) : Except WsErr Websock :=
  match typedArraySet s._sQ arr s._sQlen with
  | .error e => .error e
  | .ok sQ2 => flush { s with _sQ := sQ2, _sQlen := s._sQlen + arr.length }

/-- `_allocateBuffers()`: fresh zero-filled arrays at the current configured
capacities. -/
def _allocateBuffers (s : Websock) : Websock :=
  { s with
    _rQ := List.replicate s._rQbufferSize 0
    _sQ := List.replicate s._sQbufferSize 0 }

/-- `init()`: allocate buffers, reset `_rQi` to 0, null the channel.
Note: `_rQlen` and `_sQlen` are NOT reset here. -/
def init (s : Websock) : Websock :=
  { s._allocateBuffers with _rQi := 0, _websocket := none }

end Websock

/-- `rawChannelProps`: the capability surface `attach` validates. -/
def rawChannelProps : List String :=
  ["send", "close", "binaryType", "onerror", "onmessage", "onopen",
   "protocol", "readyState"]

namespace Websock

/-- `attach(rawChannel)`: `init()`, validate every required property (first
missing one aborts the attach), then adopt the channel and set
`binaryType = "arraybuffer"`.  The handler wiring carries no buffer state and
is not modelled on the state. -/
def attach (s : Websock) (ch : RawChannel) : Except WsErr Websock :=
  let s1 := init s
  if rawChannelProps.all (fun p => ch.props.contains p) then
    .ok { s1 with _websocket := some { ch with binaryType := "arraybuffer" } }
  else .error .incompatibleChannel

/-- `_expandCompactRQ(minFit)`: compute the 8x headroom target, grow by at
least doubling when needed, cap at `MAX_RQ_GROW_SIZE` (throwing when even the
capped capacity cannot hold the unread bytes plus `minFit`), then either copy
the unread region into a fresh buffer (resize) or `copyWithin` it to offset 0
in place; finally `_rQlen -= _rQi; _rQi = 0`. -/
def _expandCompactRQ (s : Websock) (minFit : Nat) : Except WsErr Websock :=
  let requiredBufferSize : Int := ((s._rQlen : Int) - (s._rQi : Int) + (minFit : Int)) * 8
  let resizeNeeded : Bool := (s._rQbufferSize : Int) < requiredBufferSize
  let bs1 : Nat :=
    if resizeNeeded then (max ((s._rQbufferSize : Int) * 2) requiredBufferSize).toNat
    else s._rQbufferSize
  let capped : Bool := MAX_RQ_GROW_SIZE < bs1
  let bs2 : Nat := if capped then MAX_RQ_GROW_SIZE else bs1
  if capped ∧ (bs2 : Int) - ((s._rQlen : Int) - (s._rQi : Int)) < (minFit : Int) then
    .error .bufferOverflow
  else
    if resizeNeeded then
      match typedArraySet (List.replicate bs2 0)
          ((s._rQ.drop s._rQi).take (s._rQlen - s._rQi)) 0 with
      | .error e => .error e
      | .ok newRQ =>
        .ok { s with _rQbufferSize := bs2, _rQ := newRQ
                     _rQlen := s._rQlen - s._rQi, _rQi := 0 }
    else
      .ok { s with _rQbufferSize := bs2
                   _rQ := jsCopyWithin0 s._rQ s._rQi s._rQlen
                   _rQlen := s._rQlen - s._rQi, _rQi := 0 }

/-- `_DecodeMessage(data)`: wrap the payload as bytes, expand/compact when it
does not fit after `_rQlen`, then copy it at `_rQlen` and advance `_rQlen`. -/
def _DecodeMessage (s : Websock) (data : List Nat) : Except WsErr Websock :=
  let u8 := data.map (· % 256)
  match (if (s._rQbufferSize : Int) - (s._rQlen : Int) < (u8.length : Int)
         then s._expandCompactRQ u8.length else .ok s) with
  | .error e => .error e
  | .ok s1 =>
    match typedArraySet s1._rQ u8 s1._rQlen with
    | .error e => .error e
    | .ok rQ2 => .ok { s1 with _rQ := rQ2, _rQlen := s1._rQlen + u8.length }

/-- `_recvMessage(e)` with the registered `message` handler `h` passed
explicitly: decode the payload, and when unread bytes are available fire the
handler (the returned `Nat` counts its invocations) and afterwards reset both
cursors to 0 when the handler drained the queue exactly. -/
def _recvMessage (h : Websock → Websock) (data : List Nat) (s : Websock) :
    Except WsErr (Websock × Nat) :=
  match s._DecodeMessage data with
  | .error e => .error e
  | .ok s1 =>
    if 0 < s1.rQlen then
      let s2 := h s1
      if s2._rQlen = s2._rQi then .ok ({ s2 with _rQlen := 0, _rQi := 0 }, 1)
      else .ok (s2, 1)
    else .ok (s1, 0)

end Websock

/-! ### Derived artefacts for the claims: the send/receive round trip, the
operation sequences of the invariant claim, and the invariant predicates. -/

/-- The four big-endian bytes of a value `V` (most significant first), as the
round-trip property writes them on the send path. -/
def beBytes4 (V : Nat) : List Nat :=
  [V / 16777216 % 256, V / 65536 % 256, V / 256 % 256, V % 256]

/-- Big-endian recombination of a byte list. -/
def beNat (l : List Nat) : Nat := l.foldl (fun a b => a * 256 + b) 0

/-- The `n` bytes of the receive queue starting at the read cursor
(out-of-range cells read as 0, as in `_rQ[i]` giving `undefined`). -/
def bytesAt (s : Websock) (n : Nat) : List Nat :=
  (List.range n).map (fun j => s._rQ.getD (s._rQi + j) 0)

/-- A raw channel that is already open and exposes the full capability
surface. -/
def openChannel : RawChannel :=
  { binaryType := "blob", readyState := .wsOpen, props := rawChannelProps, sent := [] }

/-- A Websock freshly initialised and attached to `openChannel` — the sender
side of the round-trip claim. -/
def senderInit : Websock :=
  { websockConstructor.init with _websocket := some openChannel }

/-- The log of messages a Websock's channel transmitted so far. -/
def sentMessages (s : Websock) : List (List Nat) :=
  match s._websocket with
  | some ch => ch.sent
  | none => []

/-- The round trip of the round-trip claim: push the four big-endian bytes of
`V` through `send` (which flushes to the open channel), feed the transmitted
message to a freshly initialised receiver via `_DecodeMessage`, and read it
back with `rQshift32`. -/
def roundTrip4 (V : Nat) : Except WsErr Int :=
  Except.bind (senderInit.send (beBytes4 V)) (fun s1 =>
    Except.bind ((websockConstructor.init)._DecodeMessage ((sentMessages s1).headD []))
      (fun r => .ok r.rQshift32.1))

/-- The operations of the invariant claim: append (`_DecodeMessage`), `skip`
(`rQskipBytes`), `peek_byte` (`rQpeek8`), `read_be` (`_rQshift`),
`read_bytes` (`rQshiftBytes`), `read_into` (`rQshiftTo`), `needs_more`
(`rQwait`). -/
inductive RQOp where
  | append (data : List Nat)
  | skip (n : Nat)
  | peek
  | readBE (n : Nat)
  | readBytes (n : Nat)
  | readInto (target : List Nat) (n : Nat)
  | wait (num goback : Nat)
deriving DecidableEq, Repr

/-- State effect of one operation (returned values are discarded). -/
def stepOp (s : Websock) : RQOp → Except WsErr Websock
  | .append d => s._DecodeMessage d
  | .skip n => .ok (s.rQskipBytes n)
  | .peek => .ok s
  | .readBE n => .ok (s._rQshift n).2
  | .readBytes n => (s.rQshiftBytes n).map (·.2)
  | .readInto t n => (s.rQshiftTo t n).map (·.2)
  | .wait num goback => (s.rQwait num goback).map (·.2)

/-- Run a sequence of receive-queue operations. -/
def runOps (s : Websock) : List RQOp → Except WsErr Websock
  | [] => .ok s
  | op :: rest =>
    match stepOp s op with
    | .error e => .error e
    | .ok s1 => runOps s1 rest

/-- The precondition under which an operation is a legitimate read: skips and
reads consume at most the unread bytes, a rewind goes back at most to the
start of the unread data.  Appends and peeks are unrestricted. -/
def opPre (s : Websock) : RQOp → Prop
  | .append _ => True
  | .skip n => s._rQi + n ≤ s._rQlen
  | .peek => True
  | .readBE n => s._rQi + n ≤ s._rQlen
  | .readBytes n => s._rQi + n ≤ s._rQlen
  | .readInto _ n => s._rQi + n ≤ s._rQlen
  | .wait _ _ => True

instance (s : Websock) (op : RQOp) : Decidable (opPre s op) := by
  cases op <;> (simp only [opPre]; infer_instance)

/-- Every operation of the sequence satisfies its precondition in the state
it runs in. -/
def okOps (s : Websock) : List RQOp → Prop
  | [] => True
  | op :: rest => opPre s op ∧ ∀ s1, stepOp s op = .ok s1 → okOps s1 rest

/-- The invariant of the claim: `0 ≤ read_cursor ≤ write_mark ≤ capacity`
(the lower bound is free on `Nat`). -/
def rqInvariant (s : Websock) : Prop :=
  s._rQi ≤ s._rQlen ∧ s._rQlen ≤ s._rQbufferSize

instance (s : Websock) : Decidable (rqInvariant s) := by
  unfold rqInvariant; infer_instance

/-- The full reachable-state invariant: cursors ordered, storage length equal
to the recorded capacity, capacity within the configured maximum, storage
cells in byte range. -/
def invFull (s : Websock) : Prop :=
  s._rQi ≤ s._rQlen ∧ s._rQlen ≤ s._rQbufferSize ∧
  s._rQ.length = s._rQbufferSize ∧ s._rQbufferSize ≤ MAX_RQ_GROW_SIZE ∧
  ∀ x ∈ s._rQ, x < 256

instance (s : Websock) : Decidable (invFull s) := by
  unfold invFull; infer_instance

/-- A small well-formed buffer state (capacity 8, two unread bytes `[7]` after
one consumed byte) used to exercise compaction. -/
def c2state : Websock :=
  { _websocket := none, _rQi := 1, _rQlen := 2, _rQbufferSize := 8,
    _rQ := [9, 7, 0, 0, 0, 0, 0, 0], _sQbufferSize := 4, _sQlen := 0,
    _sQ := [0, 0, 0, 0] }

/-- An empty well-formed buffer of capacity 4. -/
def c4state : Websock :=
  { _websocket := none, _rQi := 0, _rQlen := 0, _rQbufferSize := 4,
    _rQ := [0, 0, 0, 0], _sQbufferSize := 4, _sQlen := 0, _sQ := [0, 0, 0, 0] }

/-- A state left behind by a session: unread receive bytes (`write_mark = 5`,
`read_cursor = 2`) and pending send bytes (`write_mark = 3`). -/
def c5state : Websock :=
  { _websocket := none, _rQi := 2, _rQlen := 5, _rQbufferSize := 8,
    _rQ := [1, 2, 3, 4, 5, 0, 0, 0], _sQbufferSize := 4, _sQlen := 3,
    _sQ := [9, 9, 9, 0] }

/-- A buffer holding exactly one unread byte behind a consumed one
(`read_cursor = 1`, `write_mark = 2`). -/
def c6state : Websock :=
  { _websocket := none, _rQi := 1, _rQlen := 2, _rQbufferSize := 4,
    _rQ := [5, 6, 0, 0], _sQbufferSize := 4, _sQlen := 0, _sQ := [0, 0, 0, 0] }

/-- A buffer with one pending unread byte and cursor at 0. -/
def c8state : Websock :=
  { _websocket := none, _rQi := 0, _rQlen := 1, _rQbufferSize := 4,
    _rQ := [7, 0, 0, 0], _sQbufferSize := 4, _sQlen := 0, _sQ := [0, 0, 0, 0] }

/-- An attached state with two pending outbound bytes and an open channel. -/
def c10state : Websock :=
  { _websocket := some openChannel, _rQi := 0, _rQlen := 0, _rQbufferSize := 4,
    _rQ := [0, 0, 0, 0], _sQbufferSize := 4, _sQlen := 2, _sQ := [1, 2, 0, 0] }

/-- The same attached state with the channel already closed. -/
def c10closed : Websock :=
  { c10state with _websocket := some { openChannel with readyState := .wsClosed } }

/-- The state `attach` produces from `c5state` and `openChannel`: storage
reallocated and `read_cursor` reset, but both write marks retained. -/
def c5attached : Websock :=
  { _websocket := some { openChannel with binaryType := "arraybuffer" },
    _rQi := 0, _rQlen := 5, _rQbufferSize := 8, _rQ := List.replicate 8 0,
    _sQbufferSize := 4, _sQlen := 3, _sQ := List.replicate 4 0 }

/-! ### Helper lemmas -/

theorem map_mod256_eq_self {l : List Nat} (hb : ∀ x ∈ l, x < 256) :
    l.map (· % 256) = l := by
  induction l with
  | nil => rfl
  | cons a t ih =>
    simp only [List.map_cons, List.cons.injEq]
    constructor
    · exact Nat.mod_eq_of_lt (hb a (List.mem_cons_self a t))
    · exact ih (fun x hx => hb x (List.mem_cons_of_mem a hx))

theorem typedArraySet_ok (target src : List Nat) (off : Nat)
    (hfit : off + src.length ≤ target.length) :
    typedArraySet target src off =
      .ok (target.take off ++ src.map (· % 256) ++ target.drop (off + src.length)) := by
  unfold typedArraySet
  rw [if_neg (by omega)]

theorem typedArraySet_length {target src : List Nat} {off : Nat} {out : List Nat}
    (h : typedArraySet target src off = .ok out) : out.length = target.length := by
  unfold typedArraySet at h
  split at h
  · exact absurd h (by simp)
  · rename_i hle
    cases h
    simp only [List.length_append, List.length_take, List.length_map, List.length_drop]
    omega

theorem typedArraySet_isOk {target src : List Nat} {off : Nat} {out : List Nat}
    (h : typedArraySet target src off = .ok out) : off + src.length ≤ target.length := by
  unfold typedArraySet at h
  split at h
  · exact absurd h (by simp)
  · omega

theorem typedArraySet_mem {target src : List Nat} {off : Nat} {out : List Nat}
    (h : typedArraySet target src off = .ok out)
    (ht : ∀ x ∈ target, x < 256) : ∀ x ∈ out, x < 256 := by
  unfold typedArraySet at h
  split at h
  · exact absurd h (by simp)
  · cases h
    intro x hx
    rcases List.mem_append.1 hx with hx' | hx'
    · rcases List.mem_append.1 hx' with hx'' | hx''
      · exact ht x (List.take_subset _ _ hx'')
      · rcases List.mem_map.1 hx'' with ⟨y, _, rfl⟩
        exact Nat.mod_lt _ (by omega)
    · exact ht x (List.drop_subset _ _ hx')

theorem jsCopyWithin0_eq (l : List Nat) (start fin : Nat)
    (h1 : start ≤ fin) (h2 : fin ≤ l.length) :
    jsCopyWithin0 l start fin =
      ((l.drop start).take (fin - start)) ++ l.drop (fin - start) := by
  unfold jsCopyWithin0
  have hs : min start l.length = start := by omega
  have he : min fin l.length = fin := by omega
  have hc : min (fin - start) l.length = fin - start := by omega
  simp only [hs, he, hc]

theorem jsCopyWithin0_length (l : List Nat) (start fin : Nat)
    (h1 : start ≤ fin) (h2 : fin ≤ l.length) :
    (jsCopyWithin0 l start fin).length = l.length := by
  rw [jsCopyWithin0_eq l start fin h1 h2]
  simp only [List.length_append, List.length_take, List.length_drop]
  omega

theorem jsCopyWithin0_mem (l : List Nat) (start fin : Nat)
    (hb : ∀ x ∈ l, x < 256) : ∀ x ∈ jsCopyWithin0 l start fin, x < 256 := by
  unfold jsCopyWithin0
  intro x hx
  rcases List.mem_append.1 hx with hx' | hx'
  · exact hb x (List.drop_subset _ _ (List.take_subset _ _ hx'))
  · exact hb x (List.drop_subset _ _ hx')

theorem jsCopyWithin0_take (l : List Nat) (start fin : Nat)
    (h1 : start ≤ fin) (h2 : fin ≤ l.length) :
    (jsCopyWithin0 l start fin).take (fin - start) =
      (l.drop start).take (fin - start) := by
  rw [jsCopyWithin0_eq l start fin h1 h2]
  rw [List.take_append_of_le_length]
  · rw [List.take_take, min_self]
  · simp only [List.length_take, List.length_drop]
    omega

theorem MAX_eq : MAX_RQ_GROW_SIZE = 41943040 := rfl


theorem expand_spec (s : Websock) (m : Nat) (s1 : Websock)
    (h1 : s._rQi ≤ s._rQlen) (h2 : s._rQlen ≤ s._rQbufferSize)
    (h3 : s._rQ.length = s._rQbufferSize)
    (h4 : s._rQbufferSize ≤ MAX_RQ_GROW_SIZE)
    (hb : ∀ x ∈ s._rQ, x < 256)
    (h : s._expandCompactRQ m = .ok s1) :
    s1._rQi = 0 ∧
    s1._rQlen = s._rQlen - s._rQi ∧
    s1._rQ.take (s._rQlen - s._rQi) = (s._rQ.drop s._rQi).take (s._rQlen - s._rQi) ∧
    s1._rQ.length = s1._rQbufferSize ∧
    s._rQlen - s._rQi + m ≤ s1._rQbufferSize ∧
    s1._rQbufferSize ≤ MAX_RQ_GROW_SIZE ∧
    (∀ x ∈ s1._rQ, x < 256) ∧
    (¬ ((s._rQbufferSize : Int) < ((s._rQlen : Int) - (s._rQi : Int) + (m : Int)) * 8) →
      s1._rQ = jsCopyWithin0 s._rQ s._rQi s._rQlen ∧
      s1._rQbufferSize = s._rQbufferSize) ∧
    s1._sQ = s._sQ ∧ s1._sQlen = s._sQlen ∧
    s1._sQbufferSize = s._sQbufferSize ∧ s1._websocket = s._websocket := by
  unfold Websock._expandCompactRQ at h
  dsimp only at h
  simp only [decide_eq_true_eq] at h
  by_cases hrn : (s._rQbufferSize : Int) < ((s._rQlen : Int) - (s._rQi : Int) + (m : Int)) * 8
  · -- resize needed
    simp only [hrn, if_true, iff_true] at h
    set bs1 : Nat := (max ((s._rQbufferSize : Int) * 2)
        (((s._rQlen : Int) - (s._rQi : Int) + (m : Int)) * 8)).toNat with hbs1
    have hbs1ge : ((s._rQlen : Int) - (s._rQi : Int) + (m : Int)) * 8 ≤ (bs1 : Int) := by
      rw [hbs1, Int.toNat_of_nonneg (by omega)]
      omega
    by_cases hcap : MAX_RQ_GROW_SIZE < bs1
    · -- capped at the maximum
      simp only [hcap, true_and, if_true, iff_true] at h
      by_cases hov : (MAX_RQ_GROW_SIZE : Int) - ((s._rQlen : Int) - (s._rQi : Int)) < (m : Int)
      · rw [if_pos hov] at h
        exact absurd h (by simp)
      · rw [if_neg hov] at h
        have hfit : s._rQlen - s._rQi + m ≤ MAX_RQ_GROW_SIZE := by
          rw [MAX_eq] at hov ⊢
          omega
        rw [typedArraySet_ok _ _ _ (by
          simp only [List.length_replicate, List.length_take, List.length_drop]
          omega)] at h
        injection h with h
        subst h
        refine ⟨rfl, rfl, ?_, ?_, ?_, le_refl _, ?_, fun hc => absurd hrn hc, rfl, rfl, rfl, rfl⟩
        · simp only [List.take_zero, List.nil_append]
          rw [map_mod256_eq_self
            (fun x hx => hb x (List.drop_subset _ _ (List.take_subset _ _ hx)))]
          rw [List.take_append_of_le_length (by
            simp only [List.length_take, List.length_drop]; omega)]
          rw [List.take_take, min_self]
        · simp only [List.length_append, List.length_take, List.length_drop,
            List.length_map, List.length_replicate]
          omega
        · exact hfit
        · intro x hx
          simp only [List.take_zero, List.nil_append] at hx
          rcases List.mem_append.1 hx with hx' | hx'
          · rcases List.mem_map.1 hx' with ⟨y, _, rfl⟩
            exact Nat.mod_lt _ (by omega)
          · have := List.drop_subset _ _ hx'
            simp only [List.mem_replicate] at this
            omega
    · -- growth below the maximum
      simp only [hcap, false_and, if_false] at h
      have hfit : s._rQlen - s._rQi + m ≤ bs1 := by
        have : ((s._rQlen - s._rQi + m : Nat) : Int) ≤ (bs1 : Int) := by
          push_cast
          omega
        exact_mod_cast this
      rw [typedArraySet_ok _ _ _ (by
        simp only [List.length_replicate, List.length_take, List.length_drop]
        omega)] at h
      injection h with h
      subst h
      refine ⟨rfl, rfl, ?_, ?_, hfit, show bs1 ≤ MAX_RQ_GROW_SIZE by omega, ?_,
        fun hc => absurd hrn hc, rfl, rfl, rfl, rfl⟩
      · simp only [List.take_zero, List.nil_append]
        rw [map_mod256_eq_self
          (fun x hx => hb x (List.drop_subset _ _ (List.take_subset _ _ hx)))]
        rw [List.take_append_of_le_length (by
          simp only [List.length_take, List.length_drop]; omega)]
        rw [List.take_take, min_self]
      · simp only [List.length_append, List.length_take, List.length_drop,
          List.length_map, List.length_replicate]
        omega
      · intro x hx
        simp only [List.take_zero, List.nil_append] at hx
        rcases List.mem_append.1 hx with hx' | hx'
        · rcases List.mem_map.1 hx' with ⟨y, _, rfl⟩
          exact Nat.mod_lt _ (by omega)
        · have := List.drop_subset _ _ hx'
          simp only [List.mem_replicate] at this
          omega
  · -- no resize: compact in place
    simp only [hrn, if_false, iff_false] at h
    have hcap : ¬ (MAX_RQ_GROW_SIZE < s._rQbufferSize) := by omega
    simp only [hcap, false_and, if_false] at h
    injection h with h
    subst h
    have hfit8 : (s._rQlen : Int) - (s._rQi : Int) + (m : Int) ≤ (s._rQbufferSize : Int) := by
      nlinarith [hrn, h1, h2]
    refine ⟨rfl, rfl, ?_, ?_, ?_, h4, jsCopyWithin0_mem _ _ _ hb, fun _ => ⟨rfl, rfl⟩,
      rfl, rfl, rfl, rfl⟩
    · exact jsCopyWithin0_take _ _ _ h1 (by omega)
    · rw [jsCopyWithin0_length _ _ _ h1 (by omega), h3]
    · have : ((s._rQlen - s._rQi + m : Nat) : Int) ≤ (s._rQbufferSize : Int) := by
        push_cast
        omega
      exact_mod_cast this

theorem expand_err (s : Websock) (m : Nat)
    (h1 : s._rQi ≤ s._rQlen) (_h2 : s._rQlen ≤ s._rQbufferSize)
    (h4 : s._rQbufferSize ≤ MAX_RQ_GROW_SIZE)
    (hov : MAX_RQ_GROW_SIZE < (s._rQlen - s._rQi) + m) :
    s._expandCompactRQ m = .error .bufferOverflow := by
  unfold Websock._expandCompactRQ
  dsimp only
  simp only [decide_eq_true_eq]
  have hrn : (s._rQbufferSize : Int) < ((s._rQlen : Int) - (s._rQi : Int) + (m : Int)) * 8 := by
    rw [MAX_eq] at hov h4
    omega
  simp only [hrn, if_true, iff_true]
  have hbs1ge : ((s._rQlen : Int) - (s._rQi : Int) + (m : Int)) * 8 ≤
      ((max ((s._rQbufferSize : Int) * 2)
        (((s._rQlen : Int) - (s._rQi : Int) + (m : Int)) * 8)).toNat : Int) := by
    rw [Int.toNat_of_nonneg (by omega)]
    omega
  have hcap : MAX_RQ_GROW_SIZE < (max ((s._rQbufferSize : Int) * 2)
      (((s._rQlen : Int) - (s._rQi : Int) + (m : Int)) * 8)).toNat := by
    rw [MAX_eq] at hov ⊢
    omega
  simp only [hcap, true_and, if_true, iff_true]
  rw [if_pos (by rw [MAX_eq] at hov ⊢; omega)]

theorem expand_ok (s : Websock) (m : Nat)
    (h1 : s._rQi ≤ s._rQlen) (h2 : s._rQlen ≤ s._rQbufferSize)
    (h3 : s._rQ.length = s._rQbufferSize)
    (h4 : s._rQbufferSize ≤ MAX_RQ_GROW_SIZE)
    (hfit : (s._rQlen - s._rQi) + m ≤ MAX_RQ_GROW_SIZE) :
    ∃ s1, s._expandCompactRQ m = .ok s1 := by
  unfold Websock._expandCompactRQ
  dsimp only
  simp only [decide_eq_true_eq]
  by_cases hrn : (s._rQbufferSize : Int) < ((s._rQlen : Int) - (s._rQi : Int) + (m : Int)) * 8
  · simp only [hrn, if_true, iff_true]
    set bs1 : Nat := (max ((s._rQbufferSize : Int) * 2)
        (((s._rQlen : Int) - (s._rQi : Int) + (m : Int)) * 8)).toNat with hbs1
    have hbs1ge : ((s._rQlen : Int) - (s._rQi : Int) + (m : Int)) * 8 ≤ (bs1 : Int) := by
      rw [hbs1, Int.toNat_of_nonneg (by omega)]
      omega
    by_cases hcap : MAX_RQ_GROW_SIZE < bs1
    · simp only [hcap, true_and, if_true, iff_true]
      rw [if_neg (by rw [MAX_eq] at hfit ⊢; omega)]
      rw [typedArraySet_ok _ _ _ (by
        simp only [List.length_replicate, List.length_take, List.length_drop]
        rw [MAX_eq] at hfit ⊢
        omega)]
      exact ⟨_, rfl⟩
    · simp only [hcap, false_and, if_false]
      rw [typedArraySet_ok _ _ _ (by
        simp only [List.length_replicate, List.length_take, List.length_drop]
        omega)]
      exact ⟨_, rfl⟩
  · simp only [hrn, if_false, iff_false]
    have hcap : ¬ (MAX_RQ_GROW_SIZE < s._rQbufferSize) := by omega
    simp only [hcap, false_and, if_false]
    exact ⟨_, rfl⟩

theorem decode_spec (s : Websock) (data : List Nat) (s1 : Websock)
    (hinv : invFull s)
    (h : s._DecodeMessage data = .ok s1) :
    invFull s1 ∧
    s1._rQlen - s1._rQi = (s._rQlen - s._rQi) + data.length ∧
    s1._rQi ≤ s1._rQlen := by
  obtain ⟨h1, h2, h3, h4, hb⟩ := hinv
  unfold Websock._DecodeMessage at h
  dsimp only at h
  simp only [List.length_map] at h
  split at h
  · -- the guard evaluated to an error: impossible given h
    exact absurd h (by simp)
  · rename_i s2 hguard
    -- whether the expand path ran
    have hs2 : invFull s2 ∧ s2._rQlen - s2._rQi = s._rQlen - s._rQi ∧
        s2._rQlen + data.length ≤ s2._rQbufferSize ∧ s2._rQi ≤ s2._rQlen := by
      split at hguard
      · rename_i hg
        obtain ⟨e1, e2, _, e4, e5, e6, e7, _, _, _, _, _⟩ :=
          expand_spec s data.length s2 h1 h2 h3 h4 hb hguard
        refine ⟨⟨?_, ?_, e4, e6, e7⟩, ?_, ?_, ?_⟩ <;> omega
      · rename_i hg
        injection hguard with hguard
        subst hguard
        refine ⟨⟨h1, h2, h3, h4, hb⟩, rfl, ?_, h1⟩
        omega
    obtain ⟨⟨i1, i2, i3, i4, i5⟩, j1, j2, j3⟩ := hs2
    split at h
    · exact absurd h (by simp)
    · rename_i rQ2 hset
      injection h with h
      subst h
      have hlen := typedArraySet_length hset
      have hmem := typedArraySet_mem hset i5
      refine ⟨⟨?_, ?_, ?_, i4, hmem⟩, ?_, ?_⟩
      · show s2._rQi ≤ s2._rQlen + data.length
        omega
      · show s2._rQlen + data.length ≤ s2._rQbufferSize
        exact j2
      · show rQ2.length = s2._rQbufferSize
        rw [hlen, i3]
      · show s2._rQlen + data.length - s2._rQi = s._rQlen - s._rQi + data.length
        omega
      · show s2._rQi ≤ s2._rQlen + data.length
        omega

theorem decode_err_iff (s : Websock) (data : List Nat) (hinv : invFull s) :
    (MAX_RQ_GROW_SIZE < (s._rQlen - s._rQi) + data.length →
      s._DecodeMessage data = .error .bufferOverflow) ∧
    ((s._rQlen - s._rQi) + data.length ≤ MAX_RQ_GROW_SIZE →
      ∃ s1, s._DecodeMessage data = .ok s1) := by
  obtain ⟨h1, h2, h3, h4, hb⟩ := hinv
  unfold Websock._DecodeMessage
  dsimp only
  simp only [List.length_map]
  constructor
  · intro hov
    have hg : (s._rQbufferSize : Int) - (s._rQlen : Int) < (data.length : Int) := by
      rw [MAX_eq] at hov h4
      omega
    rw [if_pos hg, expand_err s data.length h1 h2 h4 hov]
  · intro hfit
    by_cases hg : (s._rQbufferSize : Int) - (s._rQlen : Int) < (data.length : Int)
    · rw [if_pos hg]
      obtain ⟨s2, hexp⟩ := expand_ok s data.length h1 h2 h3 h4 hfit
      rw [hexp]
      dsimp only
      obtain ⟨_, e2, _, e4, e5, _, _, _, _, _, _, _⟩ :=
        expand_spec s data.length s2 h1 h2 h3 h4 hb hexp
      rw [typedArraySet_ok _ _ _ (by rw [e4]; simp only [List.length_map]; omega)]
      exact ⟨_, rfl⟩
    · rw [if_neg hg]
      dsimp only
      rw [typedArraySet_ok _ _ _ (by rw [h3]; simp only [List.length_map]; omega)]
      exact ⟨_, rfl⟩

theorem stepOp_invFull (s : Websock) (op : RQOp) (s1 : Websock)
    (hinv : invFull s) (hpre : opPre s op) (h : stepOp s op = .ok s1) : invFull s1 := by
  obtain ⟨h1, h2, h3, h4, hb⟩ := hinv
  cases op with
  | append d =>
    exact (decode_spec s d s1 ⟨h1, h2, h3, h4, hb⟩ h).1
  | skip n =>
    simp only [stepOp, Websock.rQskipBytes] at h
    injection h with h
    subst h
    exact ⟨hpre, h2, h3, h4, hb⟩
  | peek =>
    simp only [stepOp] at h
    injection h with h
    subst h
    exact ⟨h1, h2, h3, h4, hb⟩
  | readBE n =>
    simp only [stepOp, Websock._rQshift] at h
    injection h with h
    subst h
    exact ⟨hpre, h2, h3, h4, hb⟩
  | readBytes n =>
    simp only [stepOp, Websock.rQshiftBytes] at h
    split at h
    · exact absurd h (by simp [Except.map])
    · simp only [Except.map] at h
      injection h with h
      subst h
      exact ⟨hpre, h2, h3, h4, hb⟩
  | readInto t n =>
    simp only [stepOp, Websock.rQshiftTo] at h
    split at h
    · exact absurd h (by simp [Except.map])
    · split at h
      · exact absurd h (by simp [Except.map])
      · simp only [Except.map] at h
        injection h with h
        subst h
        exact ⟨hpre, h2, h3, h4, hb⟩
  | wait num goback =>
    simp only [stepOp, Websock.rQwait] at h
    split at h
    · split at h
      · split at h
        · exact absurd h (by simp [Except.map])
        · simp only [Except.map] at h
          injection h with h
          subst h
          exact ⟨show s._rQi - goback ≤ s._rQlen by omega, h2, h3, h4, hb⟩
      · simp only [Except.map] at h
        injection h with h
        subst h
        exact ⟨h1, h2, h3, h4, hb⟩
    · simp only [Except.map] at h
      injection h with h
      subst h
      exact ⟨h1, h2, h3, h4, hb⟩

theorem runOps_invFull (ops : List RQOp) : ∀ s s1 : Websock, invFull s →
    okOps s ops → runOps s ops = .ok s1 → invFull s1 := by
  induction ops with
  | nil =>
    intro s s1 hinv _ h
    unfold runOps at h
    injection h with h
    subst h
    exact hinv
  | cons op rest ih =>
    intro s s1 hinv hok hr
    unfold runOps at hr
    split at hr
    · exact absurd hr (by simp)
    · rename_i s2 hstep
      exact ih s2 s1 (stepOp_invFull s op s2 hinv hok.1 hstep) (hok.2 s2 hstep) hr

theorem init_invFull : invFull websockConstructor.init := by
  have hrQ : websockConstructor.init._rQ = List.replicate (1024 * 1024 * 4) 0 := rfl
  unfold invFull
  refine ⟨Nat.le_refl 0, Nat.zero_le _, ?_, by decide, ?_⟩
  · rw [hrQ]
    exact List.length_replicate _ _
  · intro x hx
    rw [hrQ] at hx
    simp only [List.mem_replicate] at hx
    omega

theorem getD_lt_256 {rQ : List Nat} (hb : ∀ x ∈ rQ, x < 256) (j : Nat) :
    rQ.getD j 0 < 256 := by
  rcases h : rQ[j]? with _ | x
  · simp [List.getD, h]
  · have hx : x ∈ rQ := List.getElem?_mem h
    simp [List.getD, h]
    exact hb x hx

theorem jsShl_0 (x : Nat) (hx : x < 256) : jsShl x 0 = (x : Int) := by
  unfold jsShl toInt32
  norm_num
  split_ifs <;> omega

theorem jsShl_8 (x : Nat) (hx : x < 256) : jsShl x 8 = (x : Int) * 256 := by
  unfold jsShl toInt32
  norm_num
  split_ifs <;> omega

theorem jsShl_16 (x : Nat) (hx : x < 256) : jsShl x 16 = (x : Int) * 65536 := by
  unfold jsShl toInt32
  norm_num
  split_ifs <;> omega

theorem jsShl_24 (x : Nat) (hx : x < 256) :
    jsShl x 24 =
      if x < 128 then (x : Int) * 16777216 else (x : Int) * 16777216 - 4294967296 := by
  unfold jsShl toInt32
  norm_num
  split_ifs <;> omega

theorem rQshiftAux_four (rQ : List Nat) (i : Nat) :
    Websock.rQshiftAux rQ i 4 =
      jsShl (rQ.getD i 0) 24 + (jsShl (rQ.getD (i + 1) 0) 16 +
        (jsShl (rQ.getD (i + 2) 0) 8 + (jsShl (rQ.getD (i + 3) 0) 0 + 0))) := by
  rfl

theorem rQshift32_val (s : Websock) (hb : ∀ x ∈ s._rQ, x < 256) :
    s.rQshift32.1 =
      (if s._rQ.getD s._rQi 0 < 128
       then (beNat (bytesAt s 4) : Int)
       else (beNat (bytesAt s 4) : Int) - 4294967296) ∧
    s.rQshift32.2 = { s with _rQi := s._rQi + 4 } := by
  constructor
  · show Websock.rQshiftAux s._rQ s._rQi 4 = _
    rw [rQshiftAux_four]
    rw [jsShl_24 _ (getD_lt_256 hb _), jsShl_16 _ (getD_lt_256 hb _),
      jsShl_8 _ (getD_lt_256 hb _), jsShl_0 _ (getD_lt_256 hb _)]
    have e0 := getD_lt_256 hb s._rQi
    have e1 := getD_lt_256 hb (s._rQi + 1)
    have e2 := getD_lt_256 hb (s._rQi + 2)
    have e3 := getD_lt_256 hb (s._rQi + 3)
    have hby : bytesAt s 4 = [s._rQ.getD s._rQi 0, s._rQ.getD (s._rQi + 1) 0,
        s._rQ.getD (s._rQi + 2) 0, s._rQ.getD (s._rQi + 3) 0] := by
      unfold bytesAt
      simp [List.range_succ]
    rw [hby]
    unfold beNat
    simp only [List.foldl_cons, List.foldl_nil]
    by_cases hc : s._rQ.getD s._rQi 0 < 128
    · rw [if_pos hc, if_pos hc]
      push_cast
      ring
    · rw [if_neg hc, if_neg hc]
      push_cast
      ring
  · rfl

theorem except_bind_ok {α β : Type} (a : α) (f : α → Except WsErr β) :
    Except.bind (Except.ok a) f = f a := rfl

theorem send_senderInit (a b c d : Nat) (ha : a < 256) (hbb : b < 256)
    (hc : c < 256) (hd : d < 256) :
    ∃ s1, senderInit.send [a, b, c, d] = .ok s1 ∧
      (sentMessages s1).headD [] = [a, b, c, d] := by
  have hsq : senderInit._sQ = List.replicate (1024 * 10) 0 := rfl
  have hsl : senderInit._sQlen = 0 := rfl
  have hws : senderInit._websocket = some openChannel := rfl
  unfold Websock.send
  rw [hsq, hsl]
  rw [typedArraySet_ok _ _ _ (by
    simp only [List.length_replicate, List.length_cons, List.length_nil]
    omega)]
  dsimp only
  simp only [List.take_zero, List.nil_append, List.length_cons, List.length_nil,
    List.map_cons, List.map_nil, Nat.mod_eq_of_lt ha, Nat.mod_eq_of_lt hbb,
    Nat.mod_eq_of_lt hc, Nat.mod_eq_of_lt hd, Nat.zero_add]
  unfold Websock.flush
  simp only [hws]
  rw [if_pos (show (0:Nat) < 1 + 1 + 1 + 1 by norm_num)]
  rw [if_pos (show openChannel.readyState ∈ ReadyStatesOPEN by decide)]
  refine ⟨_, rfl, ?_⟩
  unfold sentMessages
  dsimp only
  rw [show openChannel.sent = [] from rfl]
  unfold Websock._encodeMessage
  dsimp only
  rw [List.take_left' (by simp)]
  rfl

theorem rQshiftAux_cons4 (m0 m1 m2 m3 : Nat) (rest : List Nat) :
    Websock.rQshiftAux (m0 :: m1 :: m2 :: m3 :: rest) 0 4 =
      jsShl m0 24 + (jsShl m1 16 + (jsShl m2 8 + (jsShl m3 0 + 0))) := rfl

theorem decode_fresh_shift (s : Websock) (n : Nat) (m0 m1 m2 m3 : Nat)
    (hrq : s._rQ = List.replicate n 0) (hrl : s._rQlen = 0) (hri : s._rQi = 0)
    (hbs : s._rQbufferSize = n) (hn : 4 ≤ n)
    (h0 : m0 < 256) (h1 : m1 < 256) (h2 : m2 < 256) (h3 : m3 < 256) :
    ∃ r, s._DecodeMessage [m0, m1, m2, m3] = .ok r ∧
      r.rQshift32.1 =
        (if m0 < 128 then ((m0 * 16777216 + m1 * 65536 + m2 * 256 + m3 : Nat) : Int)
         else ((m0 * 16777216 + m1 * 65536 + m2 * 256 + m3 : Nat) : Int) - 4294967296) := by
  unfold Websock._DecodeMessage
  dsimp only
  simp only [hrq, hrl, hri, hbs, List.length_map, List.length_cons, List.length_nil,
    List.map_cons, List.map_nil, Nat.mod_eq_of_lt h0, Nat.mod_eq_of_lt h1,
    Nat.mod_eq_of_lt h2, Nat.mod_eq_of_lt h3]
  rw [if_neg (by push_cast; omega)]
  dsimp only
  simp only [hrq, hrl]
  rw [typedArraySet_ok (List.replicate n 0) [m0, m1, m2, m3] 0 (by
    simp only [List.length_replicate, List.length_cons, List.length_nil]
    omega)]
  dsimp only
  refine ⟨_, rfl, ?_⟩
  show Websock.rQshiftAux _ _ 4 = _
  simp only [List.take_zero, List.nil_append, List.map_cons, List.map_nil,
    Nat.mod_eq_of_lt h0, Nat.mod_eq_of_lt h1, Nat.mod_eq_of_lt h2, Nat.mod_eq_of_lt h3,
    hri, List.cons_append, List.nil_append]
  rw [rQshiftAux_cons4]
  rw [jsShl_24 _ h0, jsShl_16 _ h1, jsShl_8 _ h2, jsShl_0 _ h3]
  by_cases hcc : m0 < 128
  · rw [if_pos hcc, if_pos hcc]
    push_cast
    ring
  · rw [if_neg hcc, if_neg hcc]
    push_cast
    ring

theorem roundTrip4_eq (V : Nat) (hV : V < 4294967296) :
    roundTrip4 V = .ok (if V < 2147483648 then (V : Int) else (V : Int) - 4294967296) := by
  have hb0 : V / 16777216 % 256 < 256 := Nat.mod_lt _ (by norm_num)
  have hb1 : V / 65536 % 256 < 256 := Nat.mod_lt _ (by norm_num)
  have hb2 : V / 256 % 256 < 256 := Nat.mod_lt _ (by norm_num)
  have hb3 : V % 256 < 256 := Nat.mod_lt _ (by norm_num)
  obtain ⟨s1, hsend, hmsg⟩ := send_senderInit _ _ _ _ hb0 hb1 hb2 hb3
  rw [show roundTrip4 V =
      Except.bind (senderInit.send (beBytes4 V)) (fun s1 =>
        Except.bind ((websockConstructor.init)._DecodeMessage ((sentMessages s1).headD []))
          (fun r => .ok r.rQshift32.1)) from rfl]
  rw [show beBytes4 V =
    [V / 16777216 % 256, V / 65536 % 256, V / 256 % 256, V % 256] from rfl]
  rw [hsend, except_bind_ok]
  rw [hmsg]
  obtain ⟨r, hdec, hval⟩ := decode_fresh_shift websockConstructor.init (1024 * 1024 * 4)
    _ _ _ _ rfl rfl rfl rfl (by norm_num) hb0 hb1 hb2 hb3
  rw [hdec, except_bind_ok]
  rw [hval]
  have hsplit : V / 16777216 % 256 * 16777216 + V / 65536 % 256 * 65536 +
      V / 256 % 256 * 256 + V % 256 = V := by omega
  rw [hsplit]
  by_cases hc : V < 2147483648
  · rw [if_pos (show V / 16777216 % 256 < 128 by omega), if_pos hc]
  · rw [if_neg (show ¬ (V / 16777216 % 256 < 128) by omega), if_neg hc]

theorem rQwait_spec (s : Websock) (num goback : Nat) :
    (s.rQlen < (num : Int) → 0 < goback → s._rQi < goback →
      s.rQwait num goback = .error .invalidRewind) ∧
    (s.rQlen < (num : Int) → goback ≤ s._rQi →
      s.rQwait num goback = .ok (true, { s with _rQi := s._rQi - goback })) ∧
    ((num : Int) ≤ s.rQlen → s.rQwait num goback = .ok (false, s)) := by
  unfold Websock.rQwait
  refine ⟨?_, ?_, ?_⟩
  · intro hlt hpos hback
    rw [if_pos hlt, if_pos (by omega), if_pos hback]
  · intro hlt hle
    rw [if_pos hlt]
    by_cases hg : goback = 0
    · subst hg
      rw [if_neg (by omega)]
      rfl
    · rw [if_pos hg, if_neg (by omega)]
  · intro hge
    rw [if_neg (by omega)]

theorem rQshiftAux_cons1 (rQ : List Nat) (i : Nat) :
    Websock.rQshiftAux rQ i 1 = jsShl (rQ.getD i 0) 0 + 0 := rfl

theorem rQshiftAux_cons2 (rQ : List Nat) (i : Nat) :
    Websock.rQshiftAux rQ i 2 =
      jsShl (rQ.getD i 0) 8 + (jsShl (rQ.getD (i + 1) 0) 0 + 0) := rfl

theorem rQshift_n_val (s : Websock) (hb : ∀ x ∈ s._rQ, x < 256) :
    (s._rQshift 1).1 = (beNat (bytesAt s 1) : Int) ∧
    (s._rQshift 2).1 = (beNat (bytesAt s 2) : Int) ∧
    (s._rQshift 4).1 =
      (if beNat (bytesAt s 4) < 2147483648 then (beNat (bytesAt s 4) : Int)
       else (beNat (bytesAt s 4) : Int) - 4294967296) := by
  have e0 := getD_lt_256 hb s._rQi
  have e1 := getD_lt_256 hb (s._rQi + 1)
  have e2 := getD_lt_256 hb (s._rQi + 2)
  have e3 := getD_lt_256 hb (s._rQi + 3)
  refine ⟨?_, ?_, ?_⟩
  · show Websock.rQshiftAux s._rQ s._rQi 1 = _
    rw [rQshiftAux_cons1, jsShl_0 _ e0]
    unfold bytesAt beNat
    simp [List.range_succ]
  · show Websock.rQshiftAux s._rQ s._rQi 2 = _
    rw [rQshiftAux_cons2, jsShl_8 _ e0, jsShl_0 _ e1]
    unfold bytesAt beNat
    simp [List.range_succ]
  · show s.rQshift32.1 = _
    rw [(rQshift32_val s hb).1]
    have hby : bytesAt s 4 = [s._rQ.getD s._rQi 0, s._rQ.getD (s._rQi + 1) 0,
        s._rQ.getD (s._rQi + 2) 0, s._rQ.getD (s._rQi + 3) 0] := by
      unfold bytesAt
      simp [List.range_succ]
    rw [hby]
    unfold beNat
    simp only [List.foldl_cons, List.foldl_nil]
    by_cases hc : s._rQ.getD s._rQi 0 < 128
    · rw [if_pos hc, if_pos (by omega)]
    · rw [if_neg hc, if_neg (by omega)]

/-! ### The claims -/

/-- Claim C7 (confirmed): `needs_more` (`rQwait`) returns true iff fewer than
`required` unread bytes are available; on the true path a positive `rewind`
moves the cursor back by exactly `rewind`, raising InvalidRewind when
`read_cursor < rewind`; with enough data it returns false and leaves the
cursor untouched, with no rewind and no error even when
`rewind > read_cursor`. -/
theorem c7_needs_more_contract (s : Websock) (num goback : Nat) :
    (s.rQlen < (num : Int) → 0 < goback → s._rQi < goback →
      s.rQwait num goback = .error .invalidRewind) ∧
    (s.rQlen < (num : Int) → goback ≤ s._rQi →
      s.rQwait num goback = .ok (true, { s with _rQi := s._rQi - goback })) ∧
    ((num : Int) ≤ s.rQlen → s.rQwait num goback = .ok (false, s)) :=
  rQwait_spec s num goback

/-- Witness for C7: a buffer with one unread byte, `needs_more(1, rewind=2)`
with `rewind` exceeding the cursor returns false untouched and raises
nothing. -/
theorem c7_needs_more_witness :
    (1 : Int) ≤ c6state.rQlen ∧ c6state.rQwait 1 2 = .ok (false, c6state) :=
  ⟨by decide, (c7_needs_more_contract c6state 1 2).2.2 (by decide)⟩

/-- Claim C10 (confirmed): `flush()` is a no-op unless the send queue holds
pending bytes and the raw channel is open-equivalent; when both hold it
transmits exactly `[0, write_mark)` as one message and resets the send
queue's write mark. -/
theorem c10_flush_contract (s : Websock) (ch : RawChannel)
    (hch : s._websocket = some ch) :
    (¬ (0 < s._sQlen ∧ ch.readyState ∈ ReadyStatesOPEN) → s.flush = .ok s) ∧
    (0 < s._sQlen → ch.readyState ∈ ReadyStatesOPEN →
      s.flush = .ok { s with
        _websocket := some { ch with sent := ch.sent ++ [s._sQ.take s._sQlen] },
        _sQlen := 0 }) := by
  unfold Websock.flush Websock._encodeMessage
  rw [hch]
  constructor
  · intro hno
    by_cases hq : 0 < s._sQlen
    · rw [if_pos hq]
      dsimp only
      rw [if_neg (fun hopen => hno ⟨hq, hopen⟩)]
    · rw [if_neg hq]
  · intro hq hopen
    rw [if_pos hq]
    dsimp only
    rw [if_pos hopen]

/-- Witness for C10: two pending bytes on an open channel are transmitted as
the single message `[1, 2]` and the write mark is reset; on a closed channel
the same state is left unchanged. -/
theorem c10_flush_witness :
    (0 < c10state._sQlen ∧ openChannel.readyState ∈ ReadyStatesOPEN ∧
      c10state.flush = .ok { c10state with
        _websocket := some { openChannel with
          sent := openChannel.sent ++ [c10state._sQ.take c10state._sQlen] },
        _sQlen := 0 }) ∧
    c10closed.flush = .ok c10closed :=
  ⟨⟨by decide, by decide,
    (c10_flush_contract c10state openChannel rfl).2 (by decide) (by decide)⟩,
   (c10_flush_contract c10closed { openChannel with readyState := .wsClosed } rfl).1
     (by decide)⟩

/-- Claim C9 (confirmed): when the handler invoked from `_recvMessage` leaves
the queue exactly drained (`read_cursor == write_mark`), both are reset to 0,
and the reset touches neither the storage nor the recorded capacity (no
reallocation). -/
theorem c9_drain_reset (h : Websock → Websock) (data : List Nat) (s s1 : Websock)
    (hdec : s._DecodeMessage data = .ok s1) (hpos : 0 < s1.rQlen)
    (hdrain : (h s1)._rQlen = (h s1)._rQi) :
    Websock._recvMessage h data s = .ok ({ h s1 with _rQlen := 0, _rQi := 0 }, 1) ∧
    ({ h s1 with _rQlen := 0, _rQi := 0 })._rQ = (h s1)._rQ ∧
    ({ h s1 with _rQlen := 0, _rQi := 0 })._rQbufferSize = (h s1)._rQbufferSize := by
  unfold Websock._recvMessage
  rw [hdec]
  dsimp only
  rw [if_pos hpos, if_pos hdrain]
  exact ⟨rfl, rfl, rfl⟩

/-- Witness for C9: one appended byte, a handler that consumes exactly all of
it, and the resulting `(0, 0)` reset with untouched storage. -/
theorem c9_drain_reset_witness :
    c4state._DecodeMessage [5] = .ok { c4state with _rQ := [5, 0, 0, 0], _rQlen := 1 } ∧
    Websock._recvMessage (fun s => { s with _rQi := s._rQlen }) [5] c4state =
      .ok ({ c4state with _rQ := [5, 0, 0, 0], _rQlen := 0, _rQi := 0 }, 1) :=
  ⟨by rfl,
   (c9_drain_reset (fun s => { s with _rQi := s._rQlen }) [5] c4state
     { c4state with _rQ := [5, 0, 0, 0], _rQlen := 1 }
     (by rfl) (by decide) (by decide)).1⟩

/-- Claim C6 (corrected): with `N` unread bytes, `needs_more(N+1)` returns
true leaving the cursor unchanged, and `needs_more(N+1, rewind=k)` with
`k ≤ read_cursor` returns true and moves the cursor back by `k`; but
`needs_more(N, rewind=k)` — the claim's second half as stated — returns
FALSE and leaves the cursor untouched, because `N` unread bytes satisfy a
requirement of `N`. -/
theorem c6_backpressure_amended (s : Websock) (k : Nat)
    (hc : s._rQi ≤ s._rQlen) (hk : k ≤ s._rQi) :
    s.rQwait ((s._rQlen - s._rQi) + 1) 0 = .ok (true, s) ∧
    s.rQwait ((s._rQlen - s._rQi) + 1) k = .ok (true, { s with _rQi := s._rQi - k }) ∧
    s.rQwait (s._rQlen - s._rQi) k = .ok (false, s) := by
  have hN : s.rQlen = ((s._rQlen - s._rQi : Nat) : Int) := by
    unfold Websock.rQlen
    omega
  refine ⟨?_, ?_, ?_⟩
  · have := (rQwait_spec s ((s._rQlen - s._rQi) + 1) 0).2.1
      (by rw [hN]; push_cast; omega) (Nat.zero_le _)
    rwa [Nat.sub_zero] at this
  · exact (rQwait_spec s ((s._rQlen - s._rQi) + 1) k).2.1
      (by rw [hN]; push_cast; omega) hk
  · exact (rQwait_spec s (s._rQlen - s._rQi) k).2.2 (by rw [hN])

/-- Witness for C6 (amended): one unread byte behind a consumed byte;
`needs_more(2)` and `needs_more(2, rewind=1)` return true (the rewind moving
the cursor to 0), `needs_more(1, rewind=1)` returns false. -/
theorem c6_backpressure_witness :
    c6state.rQwait 2 0 = .ok (true, c6state) ∧
    c6state.rQwait 2 1 = .ok (true, { c6state with _rQi := 0 }) ∧
    c6state.rQwait 1 1 = .ok (false, c6state) :=
  c6_backpressure_amended c6state 1 (by decide) (by decide)

/-- Counterexample for C6 as stated: the buffer `c6state` holds `N = 1`
unread byte and `k = 1 ≤ read_cursor`, yet `needs_more(N, rewind=k)` returns
false with the cursor untouched — not true with the cursor rewound, as the
claim asserts. -/
theorem c6_backpressure_counterexample :
    c6state.rQwait 1 1 = .ok (false, c6state) ∧
    (Except.ok (false, c6state) : Except WsErr (Bool × Websock)) ≠
      .ok (true, { c6state with _rQi := 0 }) := by
  constructor
  · exact (c6_backpressure_amended c6state 1 (by decide) (by decide)).2.2
  · simp

/-- Claim C5 (corrected): after a successful attach, storage for both buffers
is freshly allocated (zero-filled at the current capacities) and the
ReceiveBuffer's `read_cursor` is 0 — but `init()` resets neither `_rQlen` nor
`_sQlen`, so both write marks survive from the previous session and the
buffers are empty only when those marks were already 0 (as on a first attach
from the constructor state). -/
theorem c5_attach_amended (s : Websock) (ch : RawChannel) (s1 : Websock)
    (h : s.attach ch = .ok s1) :
    s1._rQi = 0 ∧
    s1._rQ = List.replicate s._rQbufferSize 0 ∧
    s1._sQ = List.replicate s._sQbufferSize 0 ∧
    s1._rQlen = s._rQlen ∧
    s1._sQlen = s._sQlen ∧
    (s._rQlen = 0 → s1.rQlen = 0) := by
  unfold Websock.attach Websock.init Websock._allocateBuffers at h
  dsimp only at h
  split at h
  · injection h with h
    subst h
    refine ⟨rfl, rfl, rfl, rfl, rfl, ?_⟩
    intro h0
    unfold Websock.rQlen
    dsimp only
    rw [h0]
    rfl
  · exact absurd h (by simp)

/-- Witness for C5 (amended): attaching from a stale state succeeds,
reallocates storage, zeroes the cursor, and keeps both write marks. -/
theorem c5_attach_witness :
    c5state.attach openChannel = .ok c5attached ∧
    c5attached._rQi = 0 ∧
    c5attached._rQ = List.replicate c5state._rQbufferSize 0 ∧
    c5attached._sQ = List.replicate c5state._sQbufferSize 0 ∧
    c5attached._rQlen = c5state._rQlen ∧
    c5attached._sQlen = c5state._sQlen := by
  have h : c5state.attach openChannel = .ok c5attached := by rfl
  have := c5_attach_amended c5state openChannel c5attached h
  exact ⟨h, this.1, this.2.1, this.2.2.1, this.2.2.2.1, this.2.2.2.2.1⟩

/-- Counterexample for C5 as stated: a successful attach from a state with
unread receive bytes and pending send bytes leaves `unread_len() = 5` and a
send write mark of 3 — the buffers are NOT empty after attach. -/
theorem c5_attach_counterexample :
    (c5state.attach openChannel).map (fun s => (s.rQlen, s._sQlen)) = .ok (5, 3) ∧
    ((5 : Int), (3 : Nat)) ≠ ((0 : Int), (0 : Nat)) := by
  constructor
  · rfl
  · decide

/-- Claim C8 (corrected): per inbound notification the registered handler is
invoked at most once, and it fires exactly when unread bytes remain after the
append — so a non-empty payload always fires it exactly once, but an empty
payload also fires it whenever earlier unread bytes are still pending; "never
invoked when the decoded payload is empty" fails on a non-drained buffer. -/
theorem c8_handler_amended (h : Websock → Websock) (data : List Nat)
    (s s1 : Websock) (n : Nat) (hinv : invFull s)
    (hr : Websock._recvMessage h data s = .ok (s1, n)) :
    n ≤ 1 ∧ (n = 1 ↔ 0 < (s._rQlen - s._rQi) + data.length) := by
  unfold Websock._recvMessage at hr
  split at hr
  · exact absurd hr (by simp)
  · rename_i s2 hdec
    obtain ⟨⟨i1, i2, i3, i4, i5⟩, j1, j2⟩ := decode_spec s data s2 hinv hdec
    dsimp only at hr
    split at hr
    · rename_i hpos
      have hpos' : 0 < s2._rQlen - s2._rQi := by
        unfold Websock.rQlen at hpos
        omega
      split at hr <;>
        (injection hr with hp
         injection hp with hs hn
         subst hn
         exact ⟨le_refl 1, by omega⟩)
    · rename_i hpos
      have hz : s2._rQlen - s2._rQi = 0 := by
        unfold Websock.rQlen at hpos
        omega
      injection hr with hp
      injection hp with hs hn
      subst hn
      exact ⟨by omega, by omega⟩

/-- Witness for C8 (amended): a one-byte payload on an empty buffer fires the
handler exactly once. -/
theorem c8_handler_witness :
    invFull c4state ∧
    Websock._recvMessage id [3] c4state =
      .ok ({ c4state with _rQ := [3, 0, 0, 0], _rQlen := 1 }, 1) ∧
    (1 ≤ 1 ∧ (1 = 1 ↔ 0 < (c4state._rQlen - c4state._rQi) + [3].length)) :=
  ⟨by decide, by rfl,
   c8_handler_amended id [3] c4state { c4state with _rQ := [3, 0, 0, 0], _rQlen := 1 } 1
     (by decide) (by rfl)⟩

/-- Counterexample for C8 as stated: an EMPTY payload arriving while one
unread byte is still pending fires the message handler once (invocation
count 1), contradicting "it is never invoked when the decoded payload is
empty". -/
theorem c8_empty_payload_counterexample :
    Websock._recvMessage id [] c8state = .ok (c8state, 1) ∧ ([] : List Nat).length = 0 := by
  exact ⟨by rfl, rfl⟩

/-- Claim C3 (corrected): starting from the freshly initialised (empty)
buffer, the invariant `read_cursor ≤ write_mark ≤ capacity` holds after every
operation of every append/read sequence PROVIDED each skip/read consumes at
most the unread byte count (`read_cursor + n ≤ write_mark`, as `opPre`
demands); the unguarded claim fails because `skip` performs no bounds
check. -/
theorem c3_invariant_amended :
    rqInvariant websockConstructor.init ∧
    ∀ (ops : List RQOp) (s1 : Websock), okOps websockConstructor.init ops →
      runOps websockConstructor.init ops = .ok s1 → rqInvariant s1 := by
  constructor
  · exact ⟨init_invFull.1, init_invFull.2.1⟩
  · intro ops s1 hok hrun
    have := runOps_invFull ops websockConstructor.init s1 init_invFull hok hrun
    exact ⟨this.1, this.2.1⟩

/-- Witness for C3 (amended): the length-respecting sequence `[skip 0]` keeps
the invariant. -/
theorem c3_invariant_witness :
    okOps websockConstructor.init [RQOp.skip 0] ∧
    runOps websockConstructor.init [RQOp.skip 0] = .ok websockConstructor.init ∧
    rqInvariant websockConstructor.init :=
  ⟨⟨by decide, fun _ _ => True.intro⟩, rfl,
   c3_invariant_amended.2 [RQOp.skip 0] websockConstructor.init
     ⟨by decide, fun _ _ => True.intro⟩ rfl⟩

/-- Counterexample for C3 as stated: `skip(1)` on the freshly initialised
empty buffer succeeds and leaves `read_cursor = 1 > 0 = write_mark`,
violating the claimed invariant — `skip` has no bounds check. -/
theorem c3_invariant_counterexample :
    runOps websockConstructor.init [RQOp.skip 1] =
      .ok (websockConstructor.init.rQskipBytes 1) ∧
    ¬ rqInvariant (websockConstructor.init.rQskipBytes 1) := by
  constructor
  · rfl
  · intro hcon
    have h1 : (0 : Nat) + 1 ≤ 0 := hcon.1
    omega

/-- Claim C4 (confirmed): append (`_DecodeMessage`) raises BufferOverflow iff
the unread byte count plus the incoming length exceeds the 40 MiB cap — in
particular a single over-long message overflows even an empty buffer — and
any append whose data fits within the capped capacity succeeds. -/
theorem c4_overflow_boundary (s : Websock) (data : List Nat) (hinv : invFull s) :
    (s._DecodeMessage data = .error .bufferOverflow ↔
      MAX_RQ_GROW_SIZE < (s._rQlen - s._rQi) + data.length) ∧
    ((s._rQlen - s._rQi) + data.length ≤ MAX_RQ_GROW_SIZE →
      ∃ s1, s._DecodeMessage data = .ok s1) := by
  obtain ⟨himp, hok⟩ := decode_err_iff s data hinv
  refine ⟨⟨?_, himp⟩, hok⟩
  intro herr
  by_contra hle
  obtain ⟨s1, h1⟩ := hok (by omega)
  rw [h1] at herr
  exact absurd herr (by simp)

/-- Witness for C4: a one-byte append to the small empty well-formed buffer
does not overflow and succeeds. -/
theorem c4_overflow_witness :
    invFull c4state ∧
    (c4state._DecodeMessage [1] = .error .bufferOverflow ↔
      MAX_RQ_GROW_SIZE < (c4state._rQlen - c4state._rQi) + [1].length) ∧
    ((c4state._rQlen - c4state._rQi) + [1].length ≤ MAX_RQ_GROW_SIZE →
      ∃ s1, c4state._DecodeMessage [1] = .ok s1) :=
  ⟨by decide,
   (c4_overflow_boundary c4state [1] (by decide)).1,
   (c4_overflow_boundary c4state [1] (by decide)).2⟩

/-- Claim C2 (confirmed): on every well-formed buffer state (ordered cursors,
storage length equal to the recorded capacity, capacity within the cap,
byte-valued cells), a successful `compact_or_grow` (`_expandCompactRQ`)
loses no data — the unread region `[read_cursor, write_mark)` reappears
byte-for-byte at `[0, write_mark')` with `write_mark' = write_mark -
read_cursor` and `read_cursor' = 0` — and when no growth is needed the
unread region is shifted to offset 0 in place by `copyWithin`, with the
storage length and recorded capacity unchanged (no reallocation). -/
theorem c2_compaction_no_data_loss (s : Websock) (minFit : Nat) (s1 : Websock)
    (hcur : s._rQi ≤ s._rQlen) (hcap : s._rQlen ≤ s._rQbufferSize)
    (hlen : s._rQ.length = s._rQbufferSize) (hmax : s._rQbufferSize ≤ MAX_RQ_GROW_SIZE)
    (hbytes : ∀ x ∈ s._rQ, x < 256)
    (h : s._expandCompactRQ minFit = .ok s1) :
    s1._rQi = 0 ∧
    s1._rQlen = s._rQlen - s._rQi ∧
    s1._rQ.take (s._rQlen - s._rQi) = (s._rQ.drop s._rQi).take (s._rQlen - s._rQi) ∧
    (¬ ((s._rQbufferSize : Int) < ((s._rQlen : Int) - (s._rQi : Int) + (minFit : Int)) * 8) →
      s1._rQ = jsCopyWithin0 s._rQ s._rQi s._rQlen ∧
      s1._rQ.length = s._rQ.length ∧
      s1._rQbufferSize = s._rQbufferSize) := by
  obtain ⟨e1, e2, e3, e4, _, _, _, e8, _, _, _, _⟩ :=
    expand_spec s minFit s1 hcur hcap hlen hmax hbytes h
  refine ⟨e1, e2, e3, ?_⟩
  intro hnr
  obtain ⟨f1, f2⟩ := e8 hnr
  refine ⟨f1, ?_, f2⟩
  rw [f1, jsCopyWithin0_length _ _ _ hcur (by omega)]

/-- Witness for C2: in-place compaction of a capacity-8 buffer holding one
unread byte behind one consumed byte. -/
theorem c2_compaction_witness :
    c2state._expandCompactRQ 0 =
      .ok { c2state with _rQ := [7, 7, 0, 0, 0, 0, 0, 0], _rQlen := 1, _rQi := 0 } ∧
    ({ c2state with _rQ := [7, 7, 0, 0, 0, 0, 0, 0], _rQlen := 1, _rQi := 0 })._rQi = 0 ∧
    ({ c2state with _rQ := [7, 7, 0, 0, 0, 0, 0, 0], _rQlen := 1, _rQi := 0 })._rQlen =
      c2state._rQlen - c2state._rQi ∧
    ({ c2state with _rQ := [7, 7, 0, 0, 0, 0, 0, 0], _rQlen := 1, _rQi := 0 })._rQ.take
        (c2state._rQlen - c2state._rQi) =
      (c2state._rQ.drop c2state._rQi).take (c2state._rQlen - c2state._rQi) := by
  have h : c2state._expandCompactRQ 0 =
      .ok { c2state with _rQ := [7, 7, 0, 0, 0, 0, 0, 0], _rQlen := 1, _rQi := 0 } := by rfl
  have := c2_compaction_no_data_loss c2state 0 _ (by decide) (by decide) (by decide)
    (by decide) (by decide) h
  exact ⟨h, this.1, this.2.1, this.2.2.1⟩

/-- Claim C1 (corrected): the send/receive round trip of a 4-byte big-endian
value returns it unchanged for every `V < 2^31` (hence for 0, 1 and
0x7fffffff), but `rQshift32` accumulates with the JavaScript signed 32-bit
`<<`, so `V = 0xffffffff` comes back as `V - 2^32 = -1`; in general
`read_be(n)` advances the cursor by `n` and returns the big-endian unsigned
value of the `n` bytes at the cursor for n ∈ {1, 2}, while for n = 4 the
value is reinterpreted as a signed 32-bit integer. -/
theorem c1_read_be_roundtrip_amended :
    (∀ V : Nat, V < 2147483648 → roundTrip4 V = .ok (V : Int)) ∧
    roundTrip4 4294967295 = .ok ((4294967295 : Int) - 4294967296) ∧
    (∀ s : Websock, (∀ x ∈ s._rQ, x < 256) →
      (s._rQshift 1).1 = (beNat (bytesAt s 1) : Int) ∧
      (s._rQshift 2).1 = (beNat (bytesAt s 2) : Int) ∧
      (s._rQshift 4).1 =
        (if beNat (bytesAt s 4) < 2147483648 then (beNat (bytesAt s 4) : Int)
         else (beNat (bytesAt s 4) : Int) - 4294967296)) ∧
    (∀ (s : Websock) (n : Nat), ((s._rQshift n).2)._rQi = s._rQi + n) := by
  refine ⟨?_, ?_, fun s hb => rQshift_n_val s hb, fun s n => rfl⟩
  · intro V hV
    rw [roundTrip4_eq V (by omega), if_pos hV]
  · rw [roundTrip4_eq 4294967295 (by norm_num), if_neg (by norm_num)]
    norm_num

/-- Witness for C1 (amended): the round trip of 1 yields 1. -/
theorem c1_roundtrip_witness :
    (1 : Nat) < 2147483648 ∧ roundTrip4 1 = .ok (1 : Int) :=
  ⟨by norm_num, c1_read_be_roundtrip_amended.1 1 (by norm_num)⟩

/-- Counterexample for C1 as stated: pushing `0xffffffff` through the send
path and reading it back with `rQshift32` yields `-1`, not `0xffffffff` —
the top byte is shifted through the signed 32-bit `<<`. -/
theorem c1_roundtrip_counterexample :
    roundTrip4 4294967295 = .ok (-1) ∧
    (Except.ok (-1) : Except WsErr Int) ≠ .ok (4294967295 : Int) := by
  constructor
  · rw [roundTrip4_eq 4294967295 (by norm_num), if_neg (by norm_num)]
    norm_num
  · intro hcon
    injection hcon with hcon
    exact absurd hcon (by norm_num)
